import Mathlib

/-!
Verification development for the HTTP/3-over-QUIC translation layer
(`mitmproxy/proxy/layers/http/_http3.py`).

The file shallowly embeds the connection state machine (`Http3Connection.state_ready`,
`state_done`), the virtual transport shim (`MockQuic`, `LayeredH3Connection.transmit`)
and the two role specializations (`Http3Server`, `Http3Client`).  The external
frame-codec library (aioquic's `H3Connection`) and the helpers that live in other
repository files (`format_error`, `error_code_to_str`, the HTTP/2 header translation,
the default codes of the protocol-error event classes) are not part of `src/`;
they are modelled from the specification's description of their contracts, and each
such definition is marked `Modelled from the spec:` in its doc comment.

Python-level behaviours that matter to the claims are embedded explicitly:
exceptions are a separate `Outcome` constructor carrying the state and the outputs
produced before the raise, the truthiness of a `queue.Queue` object is a definition
of its own, and the codec's per-stream table may hold the boolean that
`state_ready` assigns into it on a stream reset.
-/

/- ------------------------------------------------------------------ -/
/- Error and status code constants                                     -/
/- ------------------------------------------------------------------ -/

/-- HTTP status code `status_codes.CLIENT_CLOSED_REQUEST` (499). -/
def CLIENT_CLOSED_REQUEST : Nat := 499

/-- HTTP status code `status_codes.INTERNAL_SERVER_ERROR` (500). -/
def INTERNAL_SERVER_ERROR : Nat := 500

/-- `H3ErrorCode.H3_REQUEST_CANCELLED` (0x10C). -/
def H3_REQUEST_CANCELLED : Nat := 268

/-- `H3ErrorCode.H3_INTERNAL_ERROR` (0x102). -/
def H3_INTERNAL_ERROR : Nat := 258

/-- `H3ErrorCode.H3_GENERAL_PROTOCOL_ERROR` (0x101). -/
def H3_GENERAL_PROTOCOL_ERROR : Nat := 257

/-- `QuicErrorCode.APPLICATION_ERROR` (0x0C). -/
def QUIC_APPLICATION_ERROR : Nat := 12

/-- `aioquic.quic.connection.stream_is_client_initiated`: a stream id is
client-initiated iff its lowest bit is clear. -/
def stream_is_client_initiated (sid : Nat) : Bool := sid % 2 == 0

/-- Modelled from the spec: `error_code_to_str` (QUIC layer, not under `src/`)
renders an error code as human-readable text; the claims only require the
reset message to carry the rendered code. -/
def error_code_to_str (c : Nat) : String := toString c

/-- Modelled from the spec: the identifying server metadata value
(`version.MITMPROXY`, not under `src/`). -/
def MITMPROXY_VERSION : String := "mitmproxy"

/-- Modelled from the spec: `format_error` (`_base`, not under `src/`) builds
the formatted error body for a status code and a message. -/
def format_error (status : Nat) (message : String) : String :=
  toString status ++ ": " ++ message

/- ------------------------------------------------------------------ -/
/- Data model                                                          -/
/- ------------------------------------------------------------------ -/

/-- A header field list (sequence of name/value pairs). -/
abbrev HeaderFields := List (String × String)

/-- `aioquic.h3.connection.HeadersState`: the per-stream header-state
micro-lifecycle tracked by the codec. -/
inductive HeadersState where
  | initial
  | afterHeaders
  | afterTrailers
deriving DecidableEq, Repr

/-- The codec's per-stream record (`H3Stream`), with the fields the layer
reads: id, ended flag, send- and receive-side header states. -/
structure H3Stream where
  stream_id : Nat
  ended : Bool
  headers_send_state : HeadersState
  headers_recv_state : HeadersState
deriving DecidableEq, Repr

/-- A value of the codec's `_stream` table.  Normally an `H3Stream` object;
`state_ready` (line 210) assigns the Python boolean `True` into the table on a
stream reset, so the table may also hold a bare boolean. -/
inductive StreamEntry where
  | obj (s : H3Stream)
  | pybool (b : Bool)
deriving DecidableEq, Repr

/-- The codec's `_stream` dictionary (insertion-ordered, like a Python dict). -/
abbrev Table := List (Nat × StreamEntry)

/-- The mitmproxy HTTP event family (both directions).  `state_ready` treats the
request- and response-side variants identically, so one tagged union stands for
both; the connection's role fixes which family is meant. -/
inductive HttpEv where
  | data (stream_id : Nat) (d : String)
  | headers (stream_id : Nat) (hs : HeaderFields) (end_stream : Bool)
  | trailers (stream_id : Nat) (ts : HeaderFields)
  | endOfMessage (stream_id : Nat)
  | protocolError (stream_id : Nat) (message : String) (code : Nat)
deriving DecidableEq, Repr

/-- The logical stream id carried by an HTTP event. -/
def HttpEv.streamId : HttpEv → Nat
  | .data sid _ => sid
  | .headers sid _ _ => sid
  | .trailers sid _ => sid
  | .endOfMessage sid => sid
  | .protocolError sid _ _ => sid

/-- Rewrite the stream id of an HTTP event (the mutation done by
`preprocess_incoming_event` / `postprocess_outgoing_event`). -/
def HttpEv.withStreamId : HttpEv → Nat → HttpEv
  | .data _ d, sid => .data sid d
  | .headers _ hs es, sid => .headers sid hs es
  | .trailers _ ts, sid => .trailers sid ts
  | .endOfMessage _, sid => .endOfMessage sid
  | .protocolError _ m c, sid => .protocolError sid m c

/-- Decoded HTTP/3 events produced by the codec's `handle_event`
(`h3_events.DataReceived`, `h3_events.HeadersReceived`, and the unsupported
kinds such as push or WebTransport, collapsed into `other`). -/
inductive H3Ev where
  | dataReceived (stream_id : Nat) (d : String) (stream_ended : Bool)
  | headersReceived (stream_id : Nat) (hs : HeaderFields) (stream_ended : Bool)
  | other (stream_id : Nat)
deriving DecidableEq, Repr

/-- The four event shapes accepted by `state_ready` / `state_done`.
`quicStreamDataReceived` additionally carries the list of HTTP/3 events the
external codec decodes from it (the codec is a black box; its decoded output
for the turn is supplied with the event). -/
inductive InEvent where
  | httpEv (e : HttpEv)
  | quicStreamReset (stream_id : Nat) (error_code : Nat)
  | quicStreamDataReceived (stream_id : Nat) (d : String) (end_stream : Bool)
      (decoded : List H3Ev)
  | connectionClosed
deriving DecidableEq, Repr

/-- Wire payload of a buffered `SendQuicStreamData` instruction.  The codec's
byte-level frame encoding is a black box; frames are kept symbolic. -/
inductive WirePayload where
  | headersFrame (hs : HeaderFields)
  | dataFrame (d : String)
deriving DecidableEq, Repr

/-- Commands and reports the layer yields to its driver. -/
inductive Out where
  | sendQuicStreamData (stream_id : Nat) (p : WirePayload) (end_stream : Bool)
  | closeConnection
  | resetQuicStream (stream_id : Nat) (error_code : Nat)
  | openQuicStream
  | log (msg : String)
  | receiveHttp (e : HttpEv)
deriving DecidableEq, Repr

/-- The connection-level error object recorded by `set_connection_error`
(a `quic_events.ConnectionTerminated`). -/
structure ConnTerminated where
  error_code : Nat
  frame_type : Option Nat
  reason_phrase : String
deriving DecidableEq, Repr

/-- The connection state machine's phase: `state_ready` or `state_done`
(`state_start` only builds the codec and is outside the claims). -/
inductive Phase where
  | ready
  | done
deriving DecidableEq, Repr

/-- Python exceptions that can escape or be caught during a turn.
`frameUnexpected` is aioquic's `H3FrameUnexpected` (the only one
`state_ready` catches). -/
inductive PyErr where
  | frameUnexpected
  | attributeError (attr : String)
  | keyError
deriving DecidableEq, Repr

/-- The whole per-connection state: phase, the codec's `_stream` table, the
shim's pending-command queue, the recorded connection error, the client role's
two id maps, and the driver-supplied ids for `OpenQuicStream` commands
(modelling the request/resume points of spec section 5). -/
structure ConnSt where
  phase : Phase
  table : Table
  pending : List Out
  connError : Option ConnTerminated
  eventToQuic : List (Nat × Nat)
  quicToEvent : List (Nat × Nat)
  freshIds : List Nat
deriving DecidableEq, Repr

/-- The two role specializations (`Http3Server` / `Http3Client`). -/
inductive Role where
  | server
  | client
deriving DecidableEq, Repr

/-- Result of handling one event: normal completion, suspension that is never
resumed (a blocking call), or an escaped Python exception.  Each constructor
carries the state at that point and the outputs yielded before it. -/
inductive Outcome where
  | ok (st : ConnSt) (out : List Out)
  | blocked (st : ConnSt) (out : List Out)
  | err (e : PyErr) (st : ConnSt) (out : List Out)
deriving DecidableEq, Repr

/-- The state an outcome leaves the connection in. -/
def Outcome.stateOf : Outcome → ConnSt
  | .ok st _ => st
  | .blocked st _ => st
  | .err _ st _ => st

/- ------------------------------------------------------------------ -/
/- Python dict operations (insertion ordered)                          -/
/- ------------------------------------------------------------------ -/

/-- `d[k]` lookup in an insertion-ordered association list. -/
def dlookup {α : Type} : List (Nat × α) → Nat → Option α
  | [], _ => none
  | (a, b) :: rest, k => if a = k then some b else dlookup rest k

/-- `d[k] = v`: update in place if the key exists, else append (Python dict
insertion order). -/
def dinsert {α : Type} : List (Nat × α) → Nat → α → List (Nat × α)
  | [], k, v => [(k, v)]
  | (a, b) :: rest, k, v =>
    if a = k then (a, v) :: rest else (a, b) :: dinsert rest k v

/- ------------------------------------------------------------------ -/
/- Codec model (external frame-codec library, aioquic H3Connection)    -/
/- ------------------------------------------------------------------ -/

/-- Modelled from the spec: the codec's lazy per-stream record creation
(`_get_or_create_stream`), per the stream micro-lifecycle of spec section 3. -/
def getOrCreateStream (t : Table) (sid : Nat) : Table × StreamEntry :=
  match dlookup t sid with
  | some e => (t, e)
  | none =>
    let e := StreamEntry.obj ⟨sid, false, .initial, .initial⟩
    (dinsert t sid e, e)

/-- Modelled from the spec: the codec's `send_data`.  It rejects the call with
`H3FrameUnexpected` when the stream is not in the headers-sent state, else
buffers one `SendQuicStreamData` instruction on the shim (spec sections 4.1
and 4.2.1).  Reading an attribute of a boolean table entry raises. -/
def h3_send_data (st : ConnSt) (sid : Nat) (d : String) (end_stream : Bool) :
    ConnSt × Option PyErr :=
  let g := getOrCreateStream st.table sid
  let st1 := { st with table := g.1 }
  match g.2 with
  | .pybool _ => (st1, some (.attributeError "headers_send_state"))
  | .obj s =>
    if s.headers_send_state = .afterHeaders then
      ({ st1 with pending := st1.pending ++ [.sendQuicStreamData sid (.dataFrame d) end_stream] },
       none)
    else (st1, some .frameUnexpected)

/-- Modelled from the spec: the codec's `send_headers`.  It rejects the call
with `H3FrameUnexpected` when the stream is already past the trailers state,
else buffers one `SendQuicStreamData` instruction carrying the header block and
advances the stream's send-side header state (spec sections 3 and 4.2.1). -/
def h3_send_headers (st : ConnSt) (sid : Nat) (hs : HeaderFields) (end_stream : Bool) :
    ConnSt × Option PyErr :=
  let g := getOrCreateStream st.table sid
  let st1 := { st with table := g.1 }
  match g.2 with
  | .pybool _ => (st1, some (.attributeError "headers_send_state"))
  | .obj s =>
    if s.headers_send_state = .afterTrailers then (st1, some .frameUnexpected)
    else
      let s1 := { s with headers_send_state :=
        if s.headers_send_state = .initial then .afterHeaders else .afterTrailers }
      ({ st1 with
           table := dinsert st1.table sid (.obj s1),
           pending := st1.pending ++ [.sendQuicStreamData sid (.headersFrame hs) end_stream] },
       none)

/-- Modelled from the spec: the table bookkeeping the codec's `handle_event`
performs for one decoded event — create the stream record if absent, set its
ended flag when the transport signalled end of stream, and advance the
receive-side header state on a header block (spec sections 3 and 4.2.3).
Decoding data for a stream whose table entry was replaced by a boolean
raises. -/
def apply_codec_event (t : Table) : H3Ev → Except PyErr Table
  | .dataReceived sid _ se =>
    match dlookup t sid with
    | some (.pybool _) => .error (.attributeError "ended")
    | some (.obj s) => .ok (dinsert t sid (.obj { s with ended := s.ended || se }))
    | none => .ok (dinsert t sid (.obj ⟨sid, se, .initial, .afterHeaders⟩))
  | .headersReceived sid _ se =>
    match dlookup t sid with
    | some (.pybool _) => .error (.attributeError "ended")
    | some (.obj s) =>
      .ok (dinsert t sid (.obj { s with
        ended := s.ended || se,
        headers_recv_state :=
          if s.headers_recv_state = .initial then .afterHeaders else .afterTrailers }))
    | none => .ok (dinsert t sid (.obj ⟨sid, se, .initial, .afterHeaders⟩))
  | .other _ => .ok t

/-- All table updates of one `handle_event` call (the decoded event list is
computed in full before the reporting loop runs). -/
def apply_codec (t : Table) : List H3Ev → Except PyErr Table
  | [] => .ok t
  | h :: rest =>
    match apply_codec_event t h with
    | .error e => .error e
    | .ok t1 => apply_codec t1 rest

/- ------------------------------------------------------------------ -/
/- Virtual transport shim (MockQuic / LayeredH3Connection.transmit)    -/
/- ------------------------------------------------------------------ -/

/-- Python truthiness of the `queue.Queue` object `self._quic.pending_commands`
as tested by `transmit` (line 114).  `queue.Queue` defines neither a boolean
conversion nor a length, so the object is truthy regardless of its contents. -/
def queueTruthy (_q : List Out) : Bool := true

/-- `LayeredH3Connection.transmit` (lines 113-115): `while pending_commands:
yield pending_commands.get()`.  Returns the commands yielded, in queue order,
and whether the loop ends by blocking inside `Queue.get()` on the empty queue
(rather than by its condition turning false). -/
def transmitDrain : List Out → List Out × Bool
  | [] => if queueTruthy [] then ([], true) else ([], false)
  | c :: rest =>
    if queueTruthy (c :: rest) then
      let r := transmitDrain rest
      (c :: r.1, r.2)
    else ([], false)

/- ------------------------------------------------------------------ -/
/- Role specializations                                                -/
/- ------------------------------------------------------------------ -/

/-- Modelled from the spec: the generic receive-error code of the role's
protocol-error event class (`self.ReceiveProtocolError.code`, defined in the
http layer's event module, not under `src/`): the request-side default is
"client closed request", the response-side default "internal server error". -/
def ReceiveProtocolError_code : Role → Nat
  | .server => CLIENT_CLOSED_REQUEST
  | .client => INTERNAL_SERVER_ERROR

/-- `postprocess_outgoing_event`: the server role passes reports through, the
client role rewrites the transport stream id back to the logical id and raises
`KeyError` if the reverse mapping is missing (lines 426-428). -/
def postprocess_outgoing_event (role : Role) (st : ConnSt) (e : HttpEv) :
    Except PyErr HttpEv :=
  match role with
  | .server => .ok e
  | .client =>
    match dlookup st.quicToEvent e.streamId with
    | some lid => .ok (e.withStreamId lid)
    | none => .error .keyError

/-- Result of `preprocess_incoming_event`: either the (possibly rewritten)
event together with the updated state and yielded commands, or a suspension at
the `OpenQuicStream` yield with no driver response. -/
inductive PreRes where
  | ok (st : ConnSt) (e : HttpEv) (out : List Out)
  | suspended (st : ConnSt) (out : List Out)

/-- `preprocess_incoming_event`: identity for the server role; for the client
role, rewrite to the mapped transport id, or open a new bidirectional stream,
record the mapping in both directions and rewrite (lines 430-441). -/
def preprocess_incoming_event (role : Role) (st : ConnSt) (e : HttpEv) : PreRes :=
  match role with
  | .server => .ok st e []
  | .client =>
    match dlookup st.eventToQuic e.streamId with
    | some q => .ok st (e.withStreamId q) []
    | none =>
      match st.freshIds with
      | [] => .suspended st [.openQuicStream]
      | q :: restIds =>
        .ok { st with
                eventToQuic := dinsert st.eventToQuic e.streamId q,
                quicToEvent := dinsert st.quicToEvent q e.streamId,
                freshIds := restIds }
          (e.withStreamId q) [.openQuicStream]

/-- Modelled from the spec: the HTTP/2 header translation helpers are external
collaborators (spec section 2); the outgoing Headers intent already carries the
translated field list. -/
def format_h2_headers (hs : HeaderFields) : HeaderFields := hs

/-- `Http3Server.send_protocol_error` (lines 377-397): force the status code to
500 unless it is exactly 499, send a header block with the status and server
metadata, then send the formatted error body with end of stream set. -/
def server_send_protocol_error (st : ConnSt) (sid : Nat) (msg : String) (code : Nat) :
    ConnSt × Option PyErr :=
  let code1 := if code ≠ CLIENT_CLOSED_REQUEST then INTERNAL_SERVER_ERROR else code
  let r1 := h3_send_headers st sid
      [(":status", toString code1), ("server", MITMPROXY_VERSION),
       ("content-type", "text/html")] false
  match r1.2 with
  | some e => (r1.1, some e)
  | none => h3_send_data r1.1 sid (format_error code1 msg) true

/-- `Http3Client.send_protocol_error` (lines 443-454) contains a `yield`
statement, which makes it a generator function; `state_ready` calls it without
iterating it (line 190: `self.send_protocol_error(event)`), so its body —
including the asserts, the code translation and the `ResetQuicStream` yield —
never executes.  The call's effect is creating and discarding a generator
object: a no-op. -/
def client_send_protocol_error_call (st : ConnSt) : ConnSt × Option PyErr :=
  (st, none)

/-- The error-code translation of the reset branch (lines 213-217): report 499
for "request cancelled", else the role's generic receive-error code. -/
def reset_report_code (role : Role) (ec : Nat) : Nat :=
  if ec = H3_REQUEST_CANCELLED then CLIENT_CLOSED_REQUEST
  else ReceiveProtocolError_code role

/- ------------------------------------------------------------------ -/
/- The connection state machine                                        -/
/- ------------------------------------------------------------------ -/

/-- The role-specific header-parsing function (`parse_headers`, which defers to
the HTTP/2 translation rules living outside `src/`): from the decoded block's
stream id, fields and stream-ended flag to a Headers report, or a `ValueError`
message.  The state machine is parameterized over it. -/
abbrev ParseFn := Nat → HeaderFields → Bool → Except String HttpEv

/-- The outgoing-intent branch of `state_ready` (lines 154-200) after
preprocessing: translate the intent into codec calls; Headers intents with
end of stream force the codec's send-side header state to its terminal value
(lines 174-178); protocol errors are delegated to the role's handler. -/
def send_http_event (role : Role) (st : ConnSt) (e : HttpEv) : ConnSt × Option PyErr :=
  match e with
  | .data sid d => h3_send_data st sid d false
  | .headers sid hs es =>
    let r := h3_send_headers st sid (format_h2_headers hs) es
    match r.2 with
    | some er => (r.1, some er)
    | none =>
      if es then
        match dlookup r.1.table sid with
        | some (.obj s) =>
          ({ r.1 with table := (dinsert r.1.table sid (.obj { s with headers_send_state := .afterTrailers })) }, none)
        | some (.pybool _) => (r.1, some (.attributeError "headers_send_state"))
        | none => (r.1, some .keyError)
      else (r.1, none)
  | .trailers sid ts => h3_send_headers st sid ts true
  | .endOfMessage sid => h3_send_data st sid "" true
  | .protocolError sid msg code =>
    match role with
    | .server => server_send_protocol_error st sid msg code
    | .client => client_send_protocol_error_call st

/-- The outgoing-intent turn after preprocessing: translate the event, swallow
`H3FrameUnexpected` silently (lines 194-196), and on success drain the shim's
buffer via `transmit` (lines 198-200), which ends blocked in `Queue.get()`. -/
def run_http_turn (role : Role) (st1 : ConnSt) (e1 : HttpEv) (preOut : List Out) : Outcome :=
  let r := send_http_event role st1 e1
  match r.2 with
  | some .frameUnexpected => .ok r.1 preOut
  | some er => .err er r.1 preOut
  | none =>
    let dr := transmitDrain r.1.pending
    .blocked { r.1 with pending := [] } (preOut ++ dr.1)

/-- The HttpEvent branch of `state_ready` (lines 154-200): preprocess the
incoming intent, then run the outgoing turn. -/
def on_http_event (role : Role) (st : ConnSt) (e : HttpEv) : Outcome :=
  match preprocess_incoming_event role st e with
  | .suspended st1 out => .blocked st1 out
  | .ok st1 e1 preOut => run_http_turn role st1 e1 preOut

/-- The stream-reset branch of `state_ready` (lines 202-226): for a
client-initiated stream known to the codec and not ended, assign the boolean
`True` into the codec's `_stream` table (line 210) and report one translated
ProtocolError.  Reading `.ended` of a boolean entry raises. -/
def on_stream_reset (role : Role) (st : ConnSt) (sid ec : Nat) : Outcome :=
  if stream_is_client_initiated sid then
    match dlookup st.table sid with
    | none => .ok st []
    | some (.pybool _) => .err (.attributeError "ended") st []
    | some (.obj s) =>
      if s.ended then .ok st []
      else
        let st1 := { st with table := dinsert st.table sid (.pybool true) }
        let rep : HttpEv := .protocolError sid
          ("stream reset by client (" ++ error_code_to_str ec ++ ")")
          (reset_report_code role ec)
        match postprocess_outgoing_event role st1 rep with
        | .error e => .err e st1 []
        | .ok rep1 => .ok st1 [.receiveHttp rep1]
  else .ok st []

/-- The trailers-vs-headers disambiguation on the receive-side header state
and the role-specific header parsing, for one decoded header block on a
client-initiated stream (lines 259-282): trailer blocks are reported as
Trailers; otherwise a parse failure records a connection-level error and
yields a close-connection instruction, and a parse success yields the Headers
report. -/
def headers_block_step (role : Role) (p : ParseFn) (st : ConnSt)
    (sid : Nat) (hs : HeaderFields) (se : Bool) (acc0 : List Out) : Outcome :=
  match dlookup st.table sid with
  | none => .err .keyError st acc0
  | some (.pybool _) => .err (.attributeError "headers_recv_state") st acc0
  | some (.obj s) =>
    if s.headers_recv_state = .afterTrailers then
      match postprocess_outgoing_event role st (.trailers sid hs) with
      | .error e => .err e st acc0
      | .ok rep => .ok st (acc0 ++ [.receiveHttp rep])
    else
      match p sid hs se with
      | .error emsg =>
        .ok { st with connError := some ⟨H3_GENERAL_PROTOCOL_ERROR, none,
                "Invalid HTTP/3 request headers: " ++ emsg⟩ }
          (acc0 ++ [.closeConnection])
      | .ok rev =>
        match postprocess_outgoing_event role st rev with
        | .error e => .err e st acc0
        | .ok rep => .ok st (acc0 ++ [.receiveHttp rep])

/-- The reporting loop over the codec's decoded events (lines 232-301): Data
and EndOfMessage reports for body data on client-initiated streams, the
header-block handling of `headers_block_step`, the unconditional EndOfMessage
when the transport signalled stream end (lines 284-290), and a log-and-drop
for unsupported event kinds. -/
def process_h3_events (role : Role) (p : ParseFn) (st : ConnSt) :
    List H3Ev → List Out → Outcome
  | [], acc => .ok st acc
  | h :: rest, acc =>
    let acc0 := acc ++ [Out.log "h3 event"]
    match h with
    | .dataReceived sid d se =>
      if stream_is_client_initiated sid then
        match postprocess_outgoing_event role st (.data sid d) with
        | .error e => .err e st acc0
        | .ok rep =>
          let acc1 := acc0 ++ [.receiveHttp rep]
          if se then
            match postprocess_outgoing_event role st (.endOfMessage sid) with
            | .error e => .err e st acc1
            | .ok rep2 => process_h3_events role p st rest (acc1 ++ [.receiveHttp rep2])
          else process_h3_events role p st rest acc1
      else process_h3_events role p st rest (acc0 ++ [Out.log "Ignored unsupported H3 event"])
    | .headersReceived sid hs se =>
      if stream_is_client_initiated sid then
        match headers_block_step role p st sid hs se acc0 with
        | .err e st1 acc1 => .err e st1 acc1
        | .blocked st1 acc1 => .blocked st1 acc1
        | .ok st1 acc1 =>
          if se then
            match postprocess_outgoing_event role st1 (.endOfMessage sid) with
            | .error e => .err e st1 acc1
            | .ok rep2 => process_h3_events role p st1 rest (acc1 ++ [.receiveHttp rep2])
          else process_h3_events role p st1 rest acc1
      else process_h3_events role p st rest (acc0 ++ [Out.log "Ignored unsupported H3 event"])
    | .other _ =>
      process_h3_events role p st rest (acc0 ++ [Out.log "Ignored unsupported H3 event"])

/-- The transport-data branch of `state_ready` (lines 228-301): log, feed the
re-encoded event to the codec (whose table bookkeeping happens in full before
the reporting loop), then run the reporting loop. -/
def on_data_received (role : Role) (p : ParseFn) (st : ConnSt)
    (decoded : List H3Ev) : Outcome :=
  let acc := [Out.log "recvd data"]
  match apply_codec st.table decoded with
  | .error e => .err e st acc
  | .ok t => process_h3_events role p { st with table := t } decoded acc

/-- One ProtocolError report of the connection-closed branch (lines 307-323):
reuse the recorded connection error if present, else the generic message and
application error code. -/
def close_report (st : ConnSt) (sid : Nat) : HttpEv :=
  match st.connError with
  | none => .protocolError sid "Connection closed." QUIC_APPLICATION_ERROR
  | some ce => .protocolError sid ce.reason_phrase ce.error_code

/-- The loop of the connection-closed branch (lines 305-324) over the values of
the codec's `_stream` table: report a ProtocolError for every client-initiated
stream not yet ended; reading `.stream_id` of a boolean entry raises.  After
the loop the phase becomes Done (line 325); on a raise it does not. -/
def close_loop (role : Role) (st : ConnSt) : List StreamEntry → List Out → Outcome
  | [], acc => .ok { st with phase := .done } acc
  | e :: rest, acc =>
    match e with
    | .pybool _ => .err (.attributeError "stream_id") st acc
    | .obj s =>
      if stream_is_client_initiated s.stream_id && !s.ended then
        match postprocess_outgoing_event role st (close_report st s.stream_id) with
        | .error er => .err er st acc
        | .ok rep => close_loop role st rest (acc ++ [.receiveHttp rep])
      else close_loop role st rest acc

/-- The connection-closed branch of `state_ready` (lines 303-325). -/
def on_connection_closed (role : Role) (st : ConnSt) : Outcome :=
  close_loop role st (st.table.map Prod.snd) []

/-- `Http3Connection.state_ready` (lines 149-328), dispatching on the four
accepted event shapes. -/
def state_ready (role : Role) (p : ParseFn) (st : ConnSt) : InEvent → Outcome
  | .httpEv e => on_http_event role st e
  | .quicStreamReset sid ec => on_stream_reset role st sid ec
  | .quicStreamDataReceived _ _ _ decoded => on_data_received role p st decoded
  | .connectionClosed => on_connection_closed role st

/-- `Http3Connection._handle_event` for the Ready and Done phases:
`state_done` (lines 145-147) yields nothing for any accepted event. -/
def handle_event (role : Role) (p : ParseFn) (st : ConnSt) (ev : InEvent) : Outcome :=
  match st.phase with
  | .done => .ok st []
  | .ready => state_ready role p st ev

/-- Result of delivering a sequence of events: the final state, all outputs in
order, the escaped exception if one ended the run, and whether the run ended
stuck in a blocking call.  Events after a block or an exception are never
processed. -/
structure RunRes where
  finalSt : ConnSt
  outs : List Out
  error : Option PyErr
  stuck : Bool
deriving DecidableEq, Repr

/-- Deliver events one at a time, as the proxy's scheduler does. -/
def runEvents (role : Role) (p : ParseFn) (st : ConnSt) : List InEvent → RunRes
  | [] => ⟨st, [], none, false⟩
  | ev :: rest =>
    match handle_event role p st ev with
    | .ok st1 out =>
      let r := runEvents role p st1 rest
      ⟨r.finalSt, out ++ r.outs, r.error, r.stuck⟩
    | .blocked st1 out => ⟨st1, out, none, true⟩
    | .err e st1 out => ⟨st1, out, some e, false⟩

/- ------------------------------------------------------------------ -/
/- Concrete instances and predicates used by the claim theorems        -/
/- ------------------------------------------------------------------ -/

/-- A header-parsing function that always succeeds, reporting the block as a
Headers event (standing for `parse_headers` on well-formed input). -/
def parse_any : ParseFn := fun sid hs es => .ok (.headers sid hs es)

/-- A header-parsing function that always raises `ValueError` with a fixed
detail (standing for `parse_headers` on malformed input). -/
def parse_reject : ParseFn := fun _ _ _ => .error "nope"

/-- The connection state right after `state_start`: Ready with an empty codec
table, empty shim queue and empty id maps. -/
def initReady : ConnSt := ⟨.ready, [], [], none, [], [], []⟩

/-- Is this output a terminal report (EndOfMessage or ProtocolError) for the
given stream? -/
def isTerminalReport (sid : Nat) : Out → Bool
  | .receiveHttp (.endOfMessage s) => s == sid
  | .receiveHttp (.protocolError s _ _) => s == sid
  | _ => false

/-- Two requests arrive (streams 4 then 0, neither ended), then the transport
resets stream 4, then the connection closes. -/
def c1_trace : List InEvent :=
  [ .quicStreamDataReceived 4 "hdr" false [.headersReceived 4 [(":method", "GET")] false],
    .quicStreamDataReceived 0 "hdr" false [.headersReceived 0 [(":method", "GET")] false],
    .quicStreamReset 4 H3_REQUEST_CANCELLED,
    .connectionClosed ]

/-- A client-role state with logical stream 0 already mapped to transport
stream 0. -/
def c2_init : ConnSt := ⟨.ready, [], [], none, [(0, 0)], [(0, 0)], []⟩

/-- A server-role state with stream 0 in the headers-sent state. -/
def c3_init : ConnSt :=
  ⟨.ready, [(0, .obj ⟨0, false, .afterHeaders, .initial⟩)], [], none, [], [], []⟩

/-- Streams 0 (open), 4 (ended) and 3 (server-initiated) in the codec table. -/
def c4_clean : ConnSt :=
  ⟨.ready,
   [(0, .obj ⟨0, false, .afterHeaders, .afterHeaders⟩),
    (4, .obj ⟨4, true, .afterHeaders, .afterHeaders⟩),
    (3, .obj ⟨3, false, .initial, .initial⟩)],
   [], none, [], [], []⟩

/-- One open stream, with a connection error already recorded by the shim. -/
def c4_err : ConnSt :=
  ⟨.ready, [(0, .obj ⟨0, false, .afterHeaders, .afterHeaders⟩)], [],
   some ⟨77, none, "boom"⟩, [], [], []⟩

/-- A state reached after a stream reset: the table entry of stream 4 is the
boolean assigned by line 210, stream 0 is still open. -/
def c4_reset : ConnSt :=
  ⟨.ready,
   [(4, .pybool true), (0, .obj ⟨0, false, .afterHeaders, .afterHeaders⟩)],
   [], none, [], [], []⟩

/-- A server-role state with one open client-initiated stream. -/
def c5w_st : ConnSt :=
  ⟨.ready, [(0, .obj ⟨0, false, .afterHeaders, .afterHeaders⟩)], [], none, [], [], []⟩

/-- A server-role state with one open client-initiated stream (for the
reset no-op cases). -/
def c10_base : ConnSt :=
  ⟨.ready, [(0, .obj ⟨0, false, .afterHeaders, .afterHeaders⟩)], [], none, [], [], []⟩

/-- Like `c10_base` but with the stream already marked ended by the codec. -/
def c10_ended : ConnSt :=
  ⟨.ready, [(0, .obj ⟨0, true, .afterHeaders, .afterHeaders⟩)], [], none, [], [], []⟩

/-- The logical-to-transport and transport-to-logical maps are mutual
inverses. -/
def InvMaps (a b : List (Nat × Nat)) : Prop :=
  (∀ pr ∈ a, dlookup b pr.2 = some pr.1) ∧ (∀ pr ∈ b, dlookup a pr.2 = some pr.1)

/-- The client role's two id maps are mutual inverses (a bijection). -/
def MapsInverse (st : ConnSt) : Prop := InvMaps st.eventToQuic st.quicToEvent

/-- Every mapping established in `st` still holds, unchanged, in `st1`. -/
def MapsExtend (st st1 : ConnSt) : Prop :=
  (∀ l q, dlookup st.eventToQuic l = some q → dlookup st1.eventToQuic l = some q) ∧
  (∀ q l, dlookup st.quicToEvent q = some l → dlookup st1.quicToEvent q = some l)

/-- The driver supplies fresh transport stream ids: none of them is already a
key of the transport-to-logical map (spec section 3: newly opened streams). -/
def FreshSupply (st : ConnSt) : Prop :=
  ∀ i ∈ st.freshIds, dlookup st.quicToEvent i = none

/-- A client-role state for the bijection witness: one established mapping,
one fresh id supplied by the driver. -/
def c9w_st : ConnSt := ⟨.ready, [], [], none, [(0, 4)], [(4, 0)], [8]⟩

/- ------------------------------------------------------------------ -/
/- Dictionary lemmas                                                   -/
/- ------------------------------------------------------------------ -/

theorem dlookup_dinsert_self {α : Type} (d : List (Nat × α)) (k : Nat) (v : α) :
    dlookup (dinsert d k v) k = some v := by
  induction d with
  | nil => simp [dinsert, dlookup]
  | cons hd rest ih =>
    obtain ⟨a, b⟩ := hd
    by_cases h : a = k <;> simp [dinsert, dlookup, h, ih]

theorem dlookup_dinsert_ne {α : Type} (d : List (Nat × α)) (k : Nat) (v : α)
    (k' : Nat) (h : k' ≠ k) : dlookup (dinsert d k v) k' = dlookup d k' := by
  have hk : k ≠ k' := fun hh => h hh.symm
  induction d with
  | nil => simp [dinsert, dlookup, hk]
  | cons hd rest ih =>
    obtain ⟨a, b⟩ := hd
    by_cases ha : a = k
    · subst ha
      simp [dinsert, dlookup, hk]
    · simp [dinsert, dlookup, ha, ih]

theorem dinsert_append {α : Type} (d : List (Nat × α)) (k : Nat) (v : α)
    (h : dlookup d k = none) : dinsert d k v = d ++ [(k, v)] := by
  induction d with
  | nil => simp [dinsert]
  | cons hd rest ih =>
    obtain ⟨a, b⟩ := hd
    by_cases ha : a = k
    · simp [dlookup, ha] at h
    · simp only [dlookup, ha, if_false, ite_false] at h
      simp [dinsert, ha, ih h]

theorem dlookup_append_left {α : Type} {d1 : List (Nat × α)} (d2 : List (Nat × α))
    {k : Nat} {v : α} (h : dlookup d1 k = some v) :
    dlookup (d1 ++ d2) k = some v := by
  induction d1 with
  | nil => simp [dlookup] at h
  | cons hd rest ih =>
    obtain ⟨a, b⟩ := hd
    by_cases ha : a = k
    · simp [dlookup, ha] at h ⊢; exact h
    · simp only [dlookup, ha, ite_false, if_false] at h
      simpa [dlookup, ha] using ih h

theorem dlookup_append_right {α : Type} {d1 : List (Nat × α)} (d2 : List (Nat × α))
    {k : Nat} (h : dlookup d1 k = none) :
    dlookup (d1 ++ d2) k = dlookup d2 k := by
  induction d1 with
  | nil => simp
  | cons hd rest ih =>
    obtain ⟨a, b⟩ := hd
    by_cases ha : a = k
    · simp [dlookup, ha] at h
    · simp only [dlookup, ha, ite_false, if_false] at h
      simpa [dlookup, ha] using ih h

theorem dinsert_dinsert {α : Type} (d : List (Nat × α)) (k : Nat) (v w : α) :
    dinsert (dinsert d k v) k w = dinsert d k w := by
  induction d with
  | nil => simp [dinsert]
  | cons hd rest ih =>
    obtain ⟨a, b⟩ := hd
    by_cases ha : a = k <;> simp [dinsert, ha, ih]

/- ------------------------------------------------------------------ -/
/- Claim theorems                                                      -/
/- ------------------------------------------------------------------ -/

/-- C1: the claim says every logical stream that received a Headers report
eventually receives exactly one of EndOfMessage / ProtocolError, even if the
transport resets a stream or closes the connection mid-stream.  On the code
this fails: after a stream reset replaces the codec's table entry for stream 4
with the boolean `True` (line 210), the connection-closed handler raises
`AttributeError` while iterating the table (line 306 reads `.stream_id` of the
boolean), so stream 0 — which received a Headers report and is still open —
never receives any terminal event. -/
theorem c1_stream_left_without_terminal_event :
    (runEvents .server parse_any initReady c1_trace).outs.contains
        (Out.receiveHttp (.headers 0 [(":method", "GET")] false)) = true
  ∧ (runEvents .server parse_any initReady c1_trace).outs.filter (isTerminalReport 0) = []
  ∧ (runEvents .server parse_any initReady c1_trace).error =
      some (.attributeError "stream_id")
  ∧ (runEvents .server parse_any initReady c1_trace).finalSt.phase = .ready := by
  decide

/-- C2: the claim says an outgoing RequestProtocolError handled by the client
role in Ready produces exactly one reset-stream instruction carrying the
translated error code.  On the code this fails: `Http3Client.send_protocol_error`
contains a `yield`, making it a generator function, and `state_ready` (line 190)
calls it without iterating it, so its body never runs; the turn emits no
instruction at all (and then blocks in `transmit`). -/
theorem c2_client_protocol_error_emits_nothing :
    handle_event .client parse_any c2_init
        (.httpEv (.protocolError 0 "cancel" H3_REQUEST_CANCELLED)) =
      .blocked c2_init []
  ∧ handle_event .client parse_any c2_init
        (.httpEv (.protocolError 0 "other" 7)) =
      .blocked c2_init [] := by
  decide

/-- C3: the claim says handling an event is synchronous and finite, and that
draining the shim's buffer emits exactly the buffered instructions in order and
then returns.  On the code the drain emits the buffered instructions in order
but never returns: `transmit`'s loop condition tests the truthiness of the
`queue.Queue` object itself (line 114), which is always true, so after the
queue empties the loop blocks forever inside `Queue.get()`.  Consequently every
successful outgoing-intent turn ends blocked. -/
theorem c3_transmit_never_returns :
    (∀ q : List Out, transmitDrain q = (q, true))
  ∧ handle_event .server parse_any c3_init (.httpEv (.data 0 "x")) =
      .blocked c3_init [.sendQuicStreamData 0 (.dataFrame "x") false] := by
  constructor
  · intro q
    induction q with
    | nil => rfl
    | cons c rest ih => simp [transmitDrain, queueTruthy, ih]
  · decide

/-- C4: the claim says the first connection-closed event reports one
ProtocolError per open client-initiated stream (from the recorded connection
error if present, else the generic message/code), transitions to Done, and
later events produce nothing.  That holds on clean histories (first two
conjuncts), but fails after a stream reset: the boolean assigned into the
table (line 210) makes the close loop raise `AttributeError` before reporting
anything and before the phase changes to Done (third conjunct). -/
theorem c4_connection_closed_reports :
    runEvents .server parse_any c4_clean [.connectionClosed, .connectionClosed] =
      ⟨{ c4_clean with phase := .done },
       [.receiveHttp (.protocolError 0 "Connection closed." QUIC_APPLICATION_ERROR)],
       none, false⟩
  ∧ handle_event .server parse_any c4_err .connectionClosed =
      .ok { c4_err with phase := .done } [.receiveHttp (.protocolError 0 "boom" 77)]
  ∧ handle_event .server parse_any c4_reset .connectionClosed =
      .err (.attributeError "stream_id") c4_reset [] := by
  decide

/-- C10: the claim says a stream-reset event for a stream that is not
client-initiated, unknown to the codec's table, or already marked ended is a
complete no-op.  The first two cases and the codec-marked-ended case are
no-ops (first three conjuncts), but a stream marked ended by a previous reset
has the boolean `True` as its table entry (line 210), and the next reset's
`.ended` read raises `AttributeError` instead of no-opping (last conjunct). -/
theorem c10_reset_noop_cases :
    handle_event .server parse_any c10_base (.quicStreamReset 1 5) = .ok c10_base []
  ∧ handle_event .server parse_any c10_base (.quicStreamReset 8 5) = .ok c10_base []
  ∧ handle_event .server parse_any c10_ended (.quicStreamReset 0 5) = .ok c10_ended []
  ∧ runEvents .server parse_any c10_base [.quicStreamReset 0 5, .quicStreamReset 0 5] =
      ⟨{ c10_base with table := [(0, .pybool true)] },
       [.receiveHttp (.protocolError 0 "stream reset by client (5)" 499)],
       some (.attributeError "ended"), false⟩ := by
  decide

/-- C5: a transport stream reset for a client-initiated stream known to the
codec and not marked ended makes the layer mark the stream ended internally
(the boolean assignment into the codec table, spec section 9's description of
the marking) and report exactly one ProtocolError whose message identifies the
peer-initiated reset and its code, and whose code is 499 for "request
cancelled" and the role's generic receive-error code otherwise; the client
role additionally rewrites the transport id to the logical id. -/
theorem c5_stream_reset_single_protocol_error
    (p : ParseFn) (st : ConnSt) (sid ec : Nat) (s : H3Stream)
    (hph : st.phase = .ready)
    (hci : stream_is_client_initiated sid = true)
    (hlk : dlookup st.table sid = some (.obj s))
    (hend : s.ended = false) :
    handle_event .server p st (.quicStreamReset sid ec) =
      .ok { st with table := dinsert st.table sid (.pybool true) }
        [.receiveHttp (.protocolError sid
            ("stream reset by client (" ++ error_code_to_str ec ++ ")")
            (reset_report_code .server ec))]
  ∧ (∀ lid, dlookup st.quicToEvent sid = some lid →
      handle_event .client p st (.quicStreamReset sid ec) =
        .ok { st with table := dinsert st.table sid (.pybool true) }
          [.receiveHttp (.protocolError lid
              ("stream reset by client (" ++ error_code_to_str ec ++ ")")
              (reset_report_code .client ec))]) := by
  constructor
  · simp [handle_event, hph, state_ready, on_stream_reset, hci, hlk, hend,
      postprocess_outgoing_event]
  · intro lid hmap
    simp [handle_event, hph, state_ready, on_stream_reset, hci, hlk, hend,
      postprocess_outgoing_event, HttpEv.streamId, hmap, HttpEv.withStreamId]

/-- Witness for C5 at a concrete input. -/
theorem c5_stream_reset_single_protocol_error_witness :
    handle_event .server parse_any c5w_st (.quicStreamReset 0 H3_REQUEST_CANCELLED) =
      .ok { c5w_st with table := dinsert c5w_st.table 0 (.pybool true) }
        [.receiveHttp (.protocolError 0
            ("stream reset by client (" ++ error_code_to_str H3_REQUEST_CANCELLED ++ ")")
            (reset_report_code .server H3_REQUEST_CANCELLED))] :=
  (c5_stream_reset_single_protocol_error parse_any c5w_st 0 H3_REQUEST_CANCELLED
      ⟨0, false, .afterHeaders, .afterHeaders⟩ rfl (by decide) (by decide) rfl).1

/-- C6: an outgoing ResponseProtocolError handled by the server role sends a
header block whose status is the event's code if that code is exactly 499 and
500 otherwise, together with the server metadata, followed by a data send
carrying the formatted error body with end of stream set (and, per C3's
finding, the turn then blocks in `transmit` after emitting exactly those two
instructions in order). -/
theorem c6_server_protocol_error_translation
    (p : ParseFn) (st : ConnSt) (sid : Nat) (msg : String) (code : Nat)
    (hph : st.phase = .ready)
    (hlk : dlookup st.table sid = none)
    (hpend : st.pending = []) :
    handle_event .server p st (.httpEv (.protocolError sid msg code)) =
      .blocked
        { st with
            table := dinsert st.table sid (.obj ⟨sid, false, .afterHeaders, .initial⟩),
            pending := [] }
        [.sendQuicStreamData sid (.headersFrame
            [(":status", toString (if code ≠ CLIENT_CLOSED_REQUEST then INTERNAL_SERVER_ERROR else code)),
             ("server", MITMPROXY_VERSION), ("content-type", "text/html")]) false,
         .sendQuicStreamData sid (.dataFrame
            (format_error (if code ≠ CLIENT_CLOSED_REQUEST then INTERNAL_SERVER_ERROR else code) msg)) true] := by
  simp [handle_event, hph, state_ready, on_http_event, run_http_turn, preprocess_incoming_event,
    send_http_event, server_send_protocol_error, h3_send_headers, h3_send_data,
    getOrCreateStream, hlk, hpend, dlookup_dinsert_self, dinsert_dinsert,
    transmitDrain, queueTruthy]

/-- Witness for C6 at a concrete input (the spec's 502-to-500 scenario). -/
theorem c6_server_protocol_error_translation_witness :
    handle_event .server parse_any initReady (.httpEv (.protocolError 0 "bad gateway" 502)) =
      .blocked
        { initReady with
            table := dinsert initReady.table 0 (.obj ⟨0, false, .afterHeaders, .initial⟩),
            pending := [] }
        [.sendQuicStreamData 0 (.headersFrame
            [(":status", toString (if 502 ≠ CLIENT_CLOSED_REQUEST then INTERNAL_SERVER_ERROR else 502)),
             ("server", MITMPROXY_VERSION), ("content-type", "text/html")]) false,
         .sendQuicStreamData 0 (.dataFrame
            (format_error (if 502 ≠ CLIENT_CLOSED_REQUEST then INTERNAL_SERVER_ERROR else 502) "bad gateway")) true] :=
  c6_server_protocol_error_translation parse_any initReady 0 "bad gateway" 502
    rfl rfl rfl

/-- C7: when the codec rejects an outgoing Data, Headers, Trailers or
EndOfMessage intent because the targeted stream is already past the state
where that frame kind is legal (its send-side header state is terminal), the
connection emits no instruction and no report and its state is unchanged. -/
theorem c7_state_illegal_send_is_noop
    (p : ParseFn) (st : ConnSt) (sid : Nat) (s : H3Stream)
    (d : String) (hs ts : HeaderFields) (es : Bool)
    (hph : st.phase = .ready)
    (hlk : dlookup st.table sid = some (.obj s))
    (hterm : s.headers_send_state = .afterTrailers) :
    handle_event .server p st (.httpEv (.data sid d)) = .ok st []
  ∧ handle_event .server p st (.httpEv (.headers sid hs es)) = .ok st []
  ∧ handle_event .server p st (.httpEv (.trailers sid ts)) = .ok st []
  ∧ handle_event .server p st (.httpEv (.endOfMessage sid)) = .ok st [] := by
  obtain ⟨ph, tb, pe, ce, e2q, q2e, fr⟩ := st
  cases hph
  refine ⟨?_, ?_, ?_, ?_⟩ <;>
    simp [handle_event, state_ready, on_http_event, run_http_turn, preprocess_incoming_event,
      send_http_event, h3_send_data, h3_send_headers, getOrCreateStream, hlk, hterm]

/-- Witness for C7 at a concrete input. -/
theorem c7_state_illegal_send_is_noop_witness :
    handle_event .server parse_any
        ⟨.ready, [(0, .obj ⟨0, false, .afterTrailers, .initial⟩)], [], none, [], [], []⟩
        (.httpEv (.data 0 "x")) =
      .ok ⟨.ready, [(0, .obj ⟨0, false, .afterTrailers, .initial⟩)], [], none, [], [], []⟩ [] :=
  (c7_state_illegal_send_is_noop parse_any
      ⟨.ready, [(0, .obj ⟨0, false, .afterTrailers, .initial⟩)], [], none, [], [], []⟩
      0 ⟨0, false, .afterTrailers, .initial⟩ "x" [] [] false rfl (by decide) rfl).1

/-- C8: a decoded non-trailer header block on a client-initiated stream is
handed to the role's header parsing.  A parse failure is fatal to the whole
connection — the layer records a connection-level error with the general
protocol error code and a reason carrying the failure detail, and yields a
close-connection instruction; successful parsing yields the Headers report and,
when the transport signalled stream end, an EndOfMessage report immediately
after it. -/
theorem c8_header_parse_failure_is_connection_fatal
    (p : ParseFn) (st : ConnSt) (sid : Nat) (hs : HeaderFields) (es : Bool) (d : String)
    (hph : st.phase = .ready)
    (hci : stream_is_client_initiated sid = true)
    (hlk : dlookup st.table sid = none) :
    (∀ emsg, p sid hs es = .error emsg →
      handle_event .server p st (.quicStreamDataReceived sid d es [.headersReceived sid hs es]) =
        .ok { st with
                table := dinsert st.table sid (.obj ⟨sid, es, .initial, .afterHeaders⟩),
                connError := some ⟨H3_GENERAL_PROTOCOL_ERROR, none,
                  "Invalid HTTP/3 request headers: " ++ emsg⟩ }
          ([.log "recvd data", .log "h3 event", .closeConnection] ++
             (if es then [.receiveHttp (.endOfMessage sid)] else [])))
  ∧ (∀ rev, p sid hs es = .ok rev →
      handle_event .server p st (.quicStreamDataReceived sid d es [.headersReceived sid hs es]) =
        .ok { st with
                table := dinsert st.table sid (.obj ⟨sid, es, .initial, .afterHeaders⟩) }
          ([.log "recvd data", .log "h3 event", .receiveHttp rev] ++
             (if es then [.receiveHttp (.endOfMessage sid)] else []))) := by
  obtain ⟨ph, tb, pe, ce, e2q, q2e, fr⟩ := st
  cases hph
  constructor
  · intro emsg hp
    cases es <;>
      simp [handle_event, state_ready, on_data_received, apply_codec, apply_codec_event,
        hlk, process_h3_events, headers_block_step, hci, dlookup_dinsert_self, hp,
        postprocess_outgoing_event]
  · intro rev hp
    cases es <;>
      simp [handle_event, state_ready, on_data_received, apply_codec, apply_codec_event,
        hlk, process_h3_events, headers_block_step, hci, dlookup_dinsert_self, hp,
        postprocess_outgoing_event]

/-- Witness for C8 at concrete inputs: one rejected block (connection torn
down) and one accepted block (Headers then EndOfMessage). -/
theorem c8_header_parse_failure_is_connection_fatal_witness :
    (handle_event .server parse_reject initReady
        (.quicStreamDataReceived 0 "hdr" true [.headersReceived 0 [("x", "y")] true]) =
      .ok { initReady with
              table := dinsert initReady.table 0 (.obj ⟨0, true, .initial, .afterHeaders⟩),
              connError := some ⟨H3_GENERAL_PROTOCOL_ERROR, none,
                "Invalid HTTP/3 request headers: " ++ "nope"⟩ }
        ([.log "recvd data", .log "h3 event", .closeConnection] ++
           (if true then [.receiveHttp (.endOfMessage 0)] else [])))
  ∧ (handle_event .server parse_any initReady
        (.quicStreamDataReceived 0 "hdr" true [.headersReceived 0 [("x", "y")] true]) =
      .ok { initReady with
              table := dinsert initReady.table 0 (.obj ⟨0, true, .initial, .afterHeaders⟩) }
        ([.log "recvd data", .log "h3 event", .receiveHttp (.headers 0 [("x", "y")] true)] ++
           (if true then [.receiveHttp (.endOfMessage 0)] else []))) :=
  ⟨(c8_header_parse_failure_is_connection_fatal parse_reject initReady 0 [("x", "y")]
      true "hdr" rfl (by decide) rfl).1 "nope" rfl,
   (c8_header_parse_failure_is_connection_fatal parse_any initReady 0 [("x", "y")]
      true "hdr" rfl (by decide) rfl).2 (.headers 0 [("x", "y")] true) rfl⟩

/- ------------------------------------------------------------------ -/
/- Maps-preservation lemmas (only `preprocess_incoming_event` touches   -/
/- the client role's id maps)                                          -/
/- ------------------------------------------------------------------ -/

theorem h3_send_data_maps (st : ConnSt) (sid : Nat) (d : String) (es : Bool) :
    (h3_send_data st sid d es).1.eventToQuic = st.eventToQuic ∧
    (h3_send_data st sid d es).1.quicToEvent = st.quicToEvent := by
  simp only [h3_send_data, getOrCreateStream]
  (repeat' split) <;> simp

theorem h3_send_headers_maps (st : ConnSt) (sid : Nat) (hs : HeaderFields) (es : Bool) :
    (h3_send_headers st sid hs es).1.eventToQuic = st.eventToQuic ∧
    (h3_send_headers st sid hs es).1.quicToEvent = st.quicToEvent := by
  simp only [h3_send_headers, getOrCreateStream]
  (repeat' split) <;> simp

theorem server_send_protocol_error_maps (st : ConnSt) (sid : Nat) (msg : String)
    (code : Nat) :
    (server_send_protocol_error st sid msg code).1.eventToQuic = st.eventToQuic ∧
    (server_send_protocol_error st sid msg code).1.quicToEvent = st.quicToEvent := by
  simp only [server_send_protocol_error]
  split
  · exact h3_send_headers_maps st sid _ false
  · constructor
    · rw [(h3_send_data_maps _ _ _ _).1, (h3_send_headers_maps _ _ _ _).1]
    · rw [(h3_send_data_maps _ _ _ _).2, (h3_send_headers_maps _ _ _ _).2]

theorem send_http_event_maps (role : Role) (st : ConnSt) (e : HttpEv) :
    (send_http_event role st e).1.eventToQuic = st.eventToQuic ∧
    (send_http_event role st e).1.quicToEvent = st.quicToEvent := by
  cases e with
  | data sid d => exact h3_send_data_maps st sid d false
  | headers sid hs es =>
    have h1 := h3_send_headers_maps st sid (format_h2_headers hs) es
    simp only [send_http_event]
    (repeat' split) <;> simp_all
  | trailers sid ts => exact h3_send_headers_maps st sid ts true
  | endOfMessage sid => exact h3_send_data_maps st sid "" true
  | protocolError sid msg code =>
    cases role with
    | server => exact server_send_protocol_error_maps st sid msg code
    | client => exact ⟨rfl, rfl⟩

theorem run_http_turn_maps (role : Role) (st1 : ConnSt) (e1 : HttpEv)
    (preOut : List Out) :
    (run_http_turn role st1 e1 preOut).stateOf.eventToQuic = st1.eventToQuic ∧
    (run_http_turn role st1 e1 preOut).stateOf.quicToEvent = st1.quicToEvent := by
  have hm := send_http_event_maps role st1 e1
  simp only [run_http_turn]
  (repeat' split) <;> simp_all [Outcome.stateOf]

theorem headers_block_step_maps (role : Role) (p : ParseFn) (st : ConnSt)
    (sid : Nat) (hs : HeaderFields) (se : Bool) (acc0 : List Out) :
    (headers_block_step role p st sid hs se acc0).stateOf.eventToQuic = st.eventToQuic ∧
    (headers_block_step role p st sid hs se acc0).stateOf.quicToEvent = st.quicToEvent := by
  simp only [headers_block_step]
  (repeat' split) <;> simp [Outcome.stateOf]

theorem process_h3_events_maps (role : Role) (p : ParseFn) :
    ∀ (l : List H3Ev) (st : ConnSt) (acc : List Out),
      (process_h3_events role p st l acc).stateOf.eventToQuic = st.eventToQuic ∧
      (process_h3_events role p st l acc).stateOf.quicToEvent = st.quicToEvent
  | [], st, acc => by simp [process_h3_events, Outcome.stateOf]
  | h :: rest, st, acc => by
    have ih := process_h3_events_maps role p rest
    cases h with
    | dataReceived sid d se =>
      simp only [process_h3_events]
      (repeat' split) <;> simp_all [Outcome.stateOf]
    | headersReceived sid hs se =>
      have hb := headers_block_step_maps role p st sid hs se (acc ++ [Out.log "h3 event"])
      simp only [process_h3_events]
      (repeat' split) <;> simp_all [Outcome.stateOf]
    | other sid =>
      simp only [process_h3_events]
      exact ih st _

theorem on_data_received_maps (role : Role) (p : ParseFn) (st : ConnSt)
    (decoded : List H3Ev) :
    (on_data_received role p st decoded).stateOf.eventToQuic = st.eventToQuic ∧
    (on_data_received role p st decoded).stateOf.quicToEvent = st.quicToEvent := by
  simp only [on_data_received]
  split
  · simp [Outcome.stateOf]
  · rename_i t ht
    have hp := process_h3_events_maps role p decoded { st with table := t }
      [Out.log "recvd data"]
    simp_all [Outcome.stateOf]

theorem close_loop_maps (role : Role) (st : ConnSt) :
    ∀ (l : List StreamEntry) (acc : List Out),
      (close_loop role st l acc).stateOf.eventToQuic = st.eventToQuic ∧
      (close_loop role st l acc).stateOf.quicToEvent = st.quicToEvent
  | [], acc => by simp [close_loop, Outcome.stateOf]
  | e :: rest, acc => by
    have ih := close_loop_maps role st rest
    cases e <;>
      simp only [close_loop] <;>
    (repeat' split) <;> simp_all [Outcome.stateOf]

theorem on_stream_reset_maps (role : Role) (st : ConnSt) (sid ec : Nat) :
    (on_stream_reset role st sid ec).stateOf.eventToQuic = st.eventToQuic ∧
    (on_stream_reset role st sid ec).stateOf.quicToEvent = st.quicToEvent := by
  simp only [on_stream_reset]
  (repeat' split) <;> simp [Outcome.stateOf]

/- ------------------------------------------------------------------ -/
/- Bijection helpers                                                   -/
/- ------------------------------------------------------------------ -/

theorem invMaps_insert {a b : List (Nat × Nat)} {l q : Nat}
    (h : InvMaps a b) (hla : dlookup a l = none) (hqb : dlookup b q = none) :
    InvMaps (dinsert a l q) (dinsert b q l) := by
  obtain ⟨h1, h2⟩ := h
  rw [dinsert_append a l q hla, dinsert_append b q l hqb]
  constructor
  · intro pr hpr
    rcases List.mem_append.mp hpr with hm | hm
    · exact dlookup_append_left _ (h1 pr hm)
    · simp only [List.mem_singleton] at hm
      subst hm
      rw [dlookup_append_right _ hqb]
      simp [dlookup]
  · intro pr hpr
    rcases List.mem_append.mp hpr with hm | hm
    · exact dlookup_append_left _ (h2 pr hm)
    · simp only [List.mem_singleton] at hm
      subst hm
      rw [dlookup_append_right _ hla]
      simp [dlookup]

theorem mapsInverse_of_eq {st st1 : ConnSt} (hinv : MapsInverse st)
    (h1 : st1.eventToQuic = st.eventToQuic) (h2 : st1.quicToEvent = st.quicToEvent) :
    MapsInverse st1 := by
  unfold MapsInverse at *
  rw [h1, h2]
  exact hinv

theorem mapsExtend_of_eq {st st1 : ConnSt}
    (h1 : st1.eventToQuic = st.eventToQuic) (h2 : st1.quicToEvent = st.quicToEvent) :
    MapsExtend st st1 := by
  constructor
  · intro l q h
    rw [h1]
    exact h
  · intro q l h
    rw [h2]
    exact h

theorem mapsExtend_insert (st : ConnSt) (l q : Nat)
    (hla : dlookup st.eventToQuic l = none) (hqb : dlookup st.quicToEvent q = none)
    (rest : List Nat) :
    MapsExtend st { st with eventToQuic := dinsert st.eventToQuic l q,
                            quicToEvent := dinsert st.quicToEvent q l,
                            freshIds := rest } := by
  constructor
  · intro a b h
    by_cases he : a = l
    · subst he
      rw [hla] at h
      cases h
    · simpa [dlookup_dinsert_ne _ _ _ _ he] using h
  · intro a b h
    by_cases he : a = q
    · subst he
      rw [hqb] at h
      cases h
    · simpa [dlookup_dinsert_ne _ _ _ _ he] using h

theorem mapsExtend_congr {st stX stF : ConnSt} (h : MapsExtend st stX)
    (h1 : stF.eventToQuic = stX.eventToQuic) (h2 : stF.quicToEvent = stX.quicToEvent) :
    MapsExtend st stF := by
  constructor
  · intro l q hh
    rw [h1]
    exact h.1 l q hh
  · intro q l hh
    rw [h2]
    exact h.2 q l hh

/-- C9: on a client-side connection, the logical-to-transport and
transport-to-logical maps stay mutual inverses (a bijection) after every
handled event, established entries are never removed or overwritten (so a
mapped logical id keeps its transport id), and rewriting an incoming report
whose transport id has no reverse mapping fails loudly with `KeyError` rather
than silently. -/
theorem c9_client_id_maps_bijection
    (p : ParseFn) (st : ConnSt) (ev : InEvent)
    (hinv : MapsInverse st) (hfresh : FreshSupply st) :
    (MapsInverse (handle_event .client p st ev).stateOf
      ∧ MapsExtend st (handle_event .client p st ev).stateOf)
  ∧ (∀ sid ec s, st.phase = .ready → stream_is_client_initiated sid = true →
      dlookup st.table sid = some (.obj s) → s.ended = false →
      dlookup st.quicToEvent sid = none →
      handle_event .client p st (.quicStreamReset sid ec) =
        .err .keyError { st with table := dinsert st.table sid (.pybool true) } []) := by
  constructor
  · cases hph : st.phase with
    | done =>
      simp only [handle_event, hph]
      exact ⟨hinv, mapsExtend_of_eq rfl rfl⟩
    | ready =>
      cases ev with
      | httpEv e =>
        simp only [handle_event, hph, state_ready, on_http_event]
        cases hlk : dlookup st.eventToQuic e.streamId with
        | some q =>
          simp only [preprocess_incoming_event, hlk]
          have hrt := run_http_turn_maps .client st (e.withStreamId q) []
          exact ⟨mapsInverse_of_eq hinv hrt.1 hrt.2, mapsExtend_of_eq hrt.1 hrt.2⟩
        | none =>
          cases hfr : st.freshIds with
          | nil =>
            simp only [preprocess_incoming_event, hlk, hfr]
            exact ⟨hinv, mapsExtend_of_eq rfl rfl⟩
          | cons q restIds =>
            simp only [preprocess_incoming_event, hlk, hfr]
            have hq : dlookup st.quicToEvent q = none := by
              refine hfresh q ?_
              rw [hfr]
              exact List.mem_cons_self q restIds
            have hrt := run_http_turn_maps .client
              { st with eventToQuic := dinsert st.eventToQuic e.streamId q,
                        quicToEvent := dinsert st.quicToEvent q e.streamId,
                        freshIds := restIds } (e.withStreamId q) [.openQuicStream]
            have hinvX : MapsInverse
                { st with eventToQuic := dinsert st.eventToQuic e.streamId q,
                          quicToEvent := dinsert st.quicToEvent q e.streamId,
                          freshIds := restIds } :=
              invMaps_insert hinv hlk hq
            exact ⟨mapsInverse_of_eq hinvX hrt.1 hrt.2,
                   mapsExtend_congr (mapsExtend_insert st e.streamId q hlk hq restIds)
                     hrt.1 hrt.2⟩
      | quicStreamReset sid ec =>
        simp only [handle_event, hph, state_ready]
        have h := on_stream_reset_maps .client st sid ec
        exact ⟨mapsInverse_of_eq hinv h.1 h.2, mapsExtend_of_eq h.1 h.2⟩
      | quicStreamDataReceived sid d es dec =>
        simp only [handle_event, hph, state_ready]
        have h := on_data_received_maps .client p st dec
        exact ⟨mapsInverse_of_eq hinv h.1 h.2, mapsExtend_of_eq h.1 h.2⟩
      | connectionClosed =>
        simp only [handle_event, hph, state_ready, on_connection_closed]
        have h := close_loop_maps .client st (st.table.map Prod.snd) []
        exact ⟨mapsInverse_of_eq hinv h.1 h.2, mapsExtend_of_eq h.1 h.2⟩
  · intro sid ec s hph hci hlk hend hqn
    simp [handle_event, hph, state_ready, on_stream_reset, hci, hlk, hend,
      postprocess_outgoing_event, HttpEv.streamId, hqn]

/-- Witness for C9 at a concrete input: one established mapping, one fresh id,
an intent on an unmapped logical id. -/
theorem c9_client_id_maps_bijection_witness :
    (MapsInverse (handle_event .client parse_any c9w_st (.httpEv (.data 6 "x"))).stateOf
      ∧ MapsExtend c9w_st (handle_event .client parse_any c9w_st (.httpEv (.data 6 "x"))).stateOf)
  ∧ (∀ sid ec s, c9w_st.phase = .ready → stream_is_client_initiated sid = true →
      dlookup c9w_st.table sid = some (.obj s) → s.ended = false →
      dlookup c9w_st.quicToEvent sid = none →
      handle_event .client parse_any c9w_st (.quicStreamReset sid ec) =
        .err .keyError { c9w_st with table := dinsert c9w_st.table sid (.pybool true) } []) :=
  c9_client_id_maps_bijection parse_any c9w_st (.httpEv (.data 6 "x"))
    (by constructor <;> decide) (by intro i hi; fin_cases hi; decide)
